import Mathlib

/-!
Verification of the ClimaSentinel threat-detection and route-advisory core.

Shallow embedding of:
* `src/services/alert_service.py` — `_extract_weather_metrics`,
  `_analyze_conditions`, `_create_alert_data`, `create_alert`;
* `src/tools/route_planning.py` — `is_point_near_route`, the fallback branch
  of `find_cities_along_route`, `assess_weather_severity`,
  `generate_route_recommendation`;
* `src/services/notification_service.py` — `send_alert_notifications`,
  `_should_notify`, `_send_email_notification`.

Python floats are modelled as rationals (ℚ); every numeric comparison in the
embedded code is exact at the values the claims exercise.  Python dictionary
payloads are modelled as structures whose optional keys are `Option` fields,
with the source's `.get(key, default)` calls rendered as `Option.getD`.
Exceptions are modelled with `Except`.
-/

namespace ClimaSentinel

/-! ## String helpers: Python `s.lower()`, `needle in hay`, `str.upper()` -/

/-- Python `s.lower()` (ASCII case folding suffices for the embedded data;
defined over the character list so that proofs can evaluate it). -/
def lowerStr (s : String) : String := String.mk (s.data.map Char.toLower)

/-- Python `s.upper()`. -/
def upperStr (s : String) : String := String.mk (s.data.map Char.toUpper)

/-- Is `needle` a contiguous sub-list of `hay`? -/
def listInfix (needle : List Char) : List Char → Bool
  | [] => needle.isEmpty
  | c :: rest => needle.isPrefixOf (c :: rest) || listInfix needle rest

/-- Python `needle in hay` on strings: substring containment. -/
def strContains (hay needle : String) : Bool :=
  listInfix needle.toList hay.toList

/-- Python `any(word in hay for word in words)`. -/
def containsAny (hay : String) (words : List String) : Bool :=
  words.any (fun w => strContains hay w)

/-! ## Enums from `src/models/alert.py` -/

/-- `SeverityLevel` enum (`src/models/alert.py`). -/
inductive SeverityLevel where
  | LOW | MEDIUM | HIGH | CRITICAL
  deriving DecidableEq, Repr

/-- `AlertType` enum (`src/models/alert.py`). -/
inductive AlertType where
  | HURRICANE | FLOOD | TORNADO | EARTHQUAKE | TSUNAMI
  | HEATWAVE | WILDFIRE | STORM | HEAVY_RAIN | SNOW | CYCLONE
  deriving DecidableEq, Repr

/-- The `.value` string of a `SeverityLevel` member. -/
def SeverityLevel.value : SeverityLevel → String
  | .LOW => "low" | .MEDIUM => "medium" | .HIGH => "high" | .CRITICAL => "critical"

/-! ## Weather payload model

`_extract_weather_metrics` receives either a string or a dict.  A dict value
destined for `float(...)` is one of: absent, a number, a numeric string, a
non-numeric string (→ `ValueError`, caught by the extractor), or a value of
some other type such as `None` or a list (→ `TypeError`, NOT caught: the
extractor's `except` clause lists only `ValueError` and `AttributeError`). -/

/-- A dict value that the source passes to `float(...)`. -/
inductive FloatableVal where
  /-- the key is missing, `.get(key, 0)` supplies `0` -/
  | absent
  /-- an int/float value `q` -/
  | num (q : ℚ)
  /-- a string that parses as the number `q` -/
  | numStr (q : ℚ)
  /-- a string that does not parse: `float(s)` raises `ValueError` -/
  | badStr
  /-- a non-string, non-numeric value: `float(v)` raises `TypeError` -/
  | nonNumeric
  deriving DecidableEq, Repr

/-- Python exceptions relevant to the extractor.  `ValueError` and
`AttributeError` are caught by `_extract_weather_metrics`; `TypeError` is not. -/
inductive PyExc where
  | valueError | attributeError | typeError
  deriving DecidableEq, Repr

/-- Is the exception caught by `except (ValueError, AttributeError)`? -/
def PyExc.caught : PyExc → Bool
  | .valueError => true | .attributeError => true | .typeError => false

/-- `float(v)` on a dict value. -/
def pyFloat : FloatableVal → Except PyExc ℚ
  | .absent => .ok 0
  | .num q => .ok q
  | .numStr q => .ok q
  | .badStr => .error .valueError
  | .nonNumeric => .error .typeError

/-- One element of the `alerts` list of a weather payload.
The source reads `alerts[0].get("event", "Weather Alert")` and
`alerts[0].get("description", "")`. -/
structure AlertSignal where
  event : Option String := none
  description : Option String := none
  deriving DecidableEq, Repr

/-- The `forecast_severity` sub-dict of a weather payload; every read in the
source goes through `.get` with the default shown at the use site. -/
structure ForecastSeverity where
  has_severe_forecast : Option Bool := none
  total_precipitation_24h : Option ℚ := none
  max_precipitation_3h : Option ℚ := none
  max_wind_24h : Option ℚ := none
  severe_conditions : List String := []
  deriving DecidableEq, Repr

/-- The empty dict `{}` used by `weather_data.get("forecast_severity", {})`. -/
def emptyFS : ForecastSeverity := {}

/-- A structured (dict) weather payload, with exactly the keys that
`_extract_weather_metrics` and `_analyze_conditions` read. -/
structure WeatherDict where
  temperature : FloatableVal := .absent
  wind_speed : FloatableVal := .absent
  precipitation : FloatableVal := .absent
  humidity : FloatableVal := .absent
  cloud_cover : FloatableVal := .absent
  /-- `weather_data.get("condition", "")` -/
  condition : Option String := none
  /-- `weather_data.get("weather", "")` -/
  weather : Option String := none
  /-- `weather_data.get("alerts", [])` -/
  alerts : List AlertSignal := []
  /-- `weather_data.get("forecast_severity", {})` -/
  forecast_severity : Option ForecastSeverity := none
  deriving DecidableEq, Repr

/-- A weather payload as dispatched on by `isinstance` in the source:
a string, a dict, or anything else (neither branch taken). -/
inductive WeatherPayload where
  | str (s : String)
  | dict (d : WeatherDict)
  | other
  deriving DecidableEq, Repr

/-- The canonical metric set (`metrics` dict in `_extract_weather_metrics`). -/
structure Metrics where
  temperature : ℚ := 0
  wind_speed : ℚ := 0
  precipitation : ℚ := 0
  humidity : ℚ := 0
  pressure : ℚ := 0
  cloud_cover : ℚ := 0
  deriving DecidableEq, Repr

/-- The all-zero default metrics dict. -/
def initMetrics : Metrics := {}

/-! ## Labelled-number extraction for string payloads

The string branch of `_extract_weather_metrics` runs
`re.search(r'LABEL[:\s]+(-?\d+\.?\d*)', s.lower())` for each metric (the `-?`
is present only in the temperature pattern).  Because the class `[:\s]`
matches neither digits nor `-`, the regex engine never needs to backtrack, so
the search is faithfully implemented by: at each position, match the literal
label, then one-or-more `[:\s]` characters greedily, then the number. -/

/-- A character matched by the class `[:\s]`. -/
def isColonSpace (c : Char) : Bool := c = ':' || c.isWhitespace

/-- Numeric value of a digit string (most significant first). -/
def digitsVal (ds : List Char) : ℚ :=
  ds.foldl (fun acc c => acc * 10 + ((c.toNat - 48 : ℕ) : ℚ)) 0

/-- Parse `\d+\.?\d*` at the head of `cs`. -/
def parseUnsigned (cs : List Char) : Option ℚ :=
  let ds := cs.takeWhile Char.isDigit
  let rest := cs.dropWhile Char.isDigit
  if ds.isEmpty then none
  else
    match rest with
    | '.' :: rest2 =>
      let fs := rest2.takeWhile Char.isDigit
      some (digitsVal ds + digitsVal fs / (10 : ℚ) ^ fs.length)
    | _ => some (digitsVal ds)

/-- Match `[:\s]+` then `-?\d+\.?\d*` (the sign only when `allowNeg`). -/
def matchAfterLabel (allowNeg : Bool) (cs : List Char) : Option ℚ :=
  let sep := cs.takeWhile isColonSpace
  let rest := cs.dropWhile isColonSpace
  if sep.isEmpty then none
  else
    match rest with
    | '-' :: rest2 => if allowNeg then (parseUnsigned rest2).map Neg.neg else none
    | _ => parseUnsigned rest

/-- `re.search` for the pattern `label[:\s]+(-?\d+\.?\d*)`: try each start
position left to right. -/
def searchLabeled (label : List Char) (allowNeg : Bool) : List Char → Option ℚ
  | [] => none
  | c :: rest =>
    match (if label.isPrefixOf (c :: rest) then
             matchAfterLabel allowNeg ((c :: rest).drop label.length)
           else none) with
    | some q => some q
    | none => searchLabeled label allowNeg rest

/-- String branch of `_extract_weather_metrics`: labelled-field extraction on
the lower-cased payload; unmatched metrics keep the zero default.  (No
statement in this branch can raise: each captured group is a valid number.) -/
def extractMetricsStr (s : String) : Metrics :=
  let cs := (lowerStr s).toList
  { temperature := (searchLabeled "temperature".toList true cs).getD 0
    wind_speed := (searchLabeled "wind".toList false cs).getD 0
    precipitation := (searchLabeled "precipitation".toList false cs).getD 0
    humidity := (searchLabeled "humidity".toList false cs).getD 0
    cloud_cover := (searchLabeled "cloud".toList false cs).getD 0 }

/-! ## Dict branch of `_extract_weather_metrics` -/

/-- Run one `metrics[k] = float(weather_data.get(k, 0))` statement under the
`try` block: a caught exception returns the metrics accumulated so far
(the `except` clause returns `metrics`); `TypeError` propagates;
otherwise continue with the updated metrics. -/
def tryFloatStep (cur : Metrics) (v : FloatableVal) (set : Metrics → ℚ → Metrics)
    (k : Metrics → Except PyExc Metrics) : Except PyExc Metrics :=
  match pyFloat v with
  | .ok q => k (set cur q)
  | .error e => if e.caught then .ok cur else .error e

/-- The tail of the dict branch after the five `float` conversions: the
forecast-severity override and the rain-condition estimate.  No statement
here can raise in the model (all dict reads are `.get` with defaults). -/
def dictBranchTail (d : WeatherDict) (m : Metrics) : Metrics :=
  let condition := lowerStr (d.condition.getD "")
  let weather_desc := lowerStr (d.weather.getD "")
  let fs := d.forecast_severity.getD emptyFS
  -- if weather_alerts or forecast_severity.get("has_severe_forecast"):
  let m :=
    if d.alerts ≠ [] || fs.has_severe_forecast.getD false then
      let m :=
        if fs.total_precipitation_24h.getD 0 > 30 then
          { m with precipitation := max m.precipitation (fs.max_precipitation_3h.getD 15) }
        else m
      if fs.max_wind_24h.getD 0 > m.wind_speed then
        { m with wind_speed := max m.wind_speed (fs.max_wind_24h.getD 0) }
      else m
    else m
  -- if metrics["precipitation"] == 0 and any(word in condition or word in weather_desc ...):
  if m.precipitation = 0 &&
      (["rain", "drizzle", "shower", "thunderstorm"].any
        (fun w => strContains condition w || strContains weather_desc w)) then
    if strContains condition "heavy" || strContains weather_desc "heavy" then
      { m with precipitation := 15 }
    else if strContains condition "moderate" || strContains weather_desc "moderate" then
      { m with precipitation := 8 }
    else if strContains condition "light" || strContains weather_desc "light"
        || strContains condition "drizzle" then
      { m with precipitation := 3 }
    else
      { m with precipitation := 5 }
  else m

/-- Dict branch of `_extract_weather_metrics`: the five `float` conversions in
source order (each may raise), then the forecast override and rain estimate.
`.error e` means the exception `e` propagates to the caller. -/
def extractMetricsDict (d : WeatherDict) : Except PyExc Metrics :=
  tryFloatStep initMetrics d.temperature (fun m q => { m with temperature := q }) fun m =>
  tryFloatStep m d.wind_speed (fun m q => { m with wind_speed := q }) fun m =>
  tryFloatStep m d.precipitation (fun m q => { m with precipitation := q }) fun m =>
  tryFloatStep m d.humidity (fun m q => { m with humidity := q }) fun m =>
  tryFloatStep m d.cloud_cover (fun m q => { m with cloud_cover := q }) fun m =>
  .ok (dictBranchTail d m)

/-- `_extract_weather_metrics` (`src/services/alert_service.py`, lines 84-154).
A payload of any other type takes neither `isinstance` branch and the zero
defaults are returned. -/
def extractWeatherMetrics : WeatherPayload → Except PyExc Metrics
  | .str s => .ok (extractMetricsStr s)
  | .dict d => extractMetricsDict d
  | .other => .ok initMetrics

/-! ## `_analyze_conditions` and `_create_alert_data`
(`src/services/alert_service.py`, lines 156-350) -/

/-- `geo_data` as read by `_create_alert_data`: `.get("name", "")` etc.,
`.get("lat")` / `.get("lon")` with no default. -/
structure GeoData where
  name : Option String := none
  state : Option String := none
  country : Option String := none
  lat : Option ℚ := none
  lon : Option ℚ := none
  deriving DecidableEq, Repr

/-- The alert-data dict produced by `_create_alert_data` and consumed by
`create_alert`. -/
structure AlertData where
  alert_type : AlertType
  severity : SeverityLevel
  title : String
  description : String
  location : String
  city : String
  state : String
  country : String
  latitude : Option ℚ
  longitude : Option ℚ
  temperature : ℚ
  wind_speed : ℚ
  precipitation : ℚ
  humidity : ℚ
  deriving DecidableEq, Repr

/-- `_create_alert_data` (lines 324-350). -/
def createAlertData (alert_type : AlertType) (severity : SeverityLevel)
    (title description location : String) (geo : GeoData) (metrics : Metrics) :
    AlertData :=
  { alert_type := alert_type
    severity := severity
    title := title
    description := description
    location := location
    city := geo.name.getD ""
    state := geo.state.getD ""
    country := geo.country.getD ""
    latitude := geo.lat
    longitude := geo.lon
    temperature := metrics.temperature
    wind_speed := metrics.wind_speed
    precipitation := metrics.precipitation
    humidity := metrics.humidity }

/-- The class-level `SEVERE_THRESHOLDS` dict. -/
structure Thresholds where
  temperature_high : ℚ := 40
  temperature_low : ℚ := -10
  wind_speed_high : ℚ := 70
  wind_speed_critical : ℚ := 118
  precipitation_high : ℚ := 15
  precipitation_moderate : ℚ := 5
  precipitation_critical : ℚ := 50
  humidity_high : ℚ := 95
  cloud_cover_full : ℚ := 90

/-- `AlertService.SEVERE_THRESHOLDS`. -/
def SEVERE_THRESHOLDS : Thresholds := {}

/-- Render a metric value into prose.  The Python source interpolates with
`f"{x:.1f}"` / `f"{x:.0f}"` float formatting; the embedding abstracts that
decimal rendering to `toString`, since no verified property concerns the
prose of a description. -/
def fmtQ (q : ℚ) : String := toString q

/-- The threshold cascade of `_analyze_conditions` (lines 228-322): the checks
performed after the official-alert and severe-forecast branches fall through. -/
def thresholdChecks (metrics : Metrics) (location : String) (geo : GeoData) :
    Option AlertData :=
  let temp := metrics.temperature
  let wind_speed := metrics.wind_speed
  let precipitation := metrics.precipitation
  let humidity := metrics.humidity
  let cloud_cover := metrics.cloud_cover
  -- CRITICAL: Hurricane/Cyclone conditions
  if wind_speed ≥ SEVERE_THRESHOLDS.wind_speed_critical then
    some (createAlertData AlertType.HURRICANE SeverityLevel.CRITICAL
      "Hurricane Force Winds Detected"
      ("Extremely dangerous wind speeds of " ++ fmtQ wind_speed ++ " km/h detected. " ++
       "Seek shelter immediately. Severe structural damage possible.")
      location geo metrics)
  -- CRITICAL: Extreme heat
  else if temp ≥ SEVERE_THRESHOLDS.temperature_high then
    some (createAlertData AlertType.HEATWAVE
      (if temp ≥ 45 then SeverityLevel.CRITICAL else SeverityLevel.HIGH)
      "Extreme Heat Warning"
      ("Dangerous heat conditions with temperature at " ++ fmtQ temp ++ "°C. " ++
       "Stay hydrated and avoid prolonged outdoor exposure.")
      location geo metrics)
  -- CRITICAL: Extreme rainfall/flooding risk
  else if precipitation ≥ SEVERE_THRESHOLDS.precipitation_critical then
    some (createAlertData AlertType.FLOOD SeverityLevel.CRITICAL
      "Flash Flood Warning"
      ("Extremely heavy rainfall of " ++ fmtQ precipitation ++ "mm detected. " ++
       "Flash flooding likely. Move to higher ground immediately.")
      location geo metrics)
  -- HIGH/MEDIUM: Heavy rainfall
  else if precipitation ≥ SEVERE_THRESHOLDS.precipitation_high then
    some (createAlertData AlertType.HEAVY_RAIN
      (if precipitation ≥ 25 then SeverityLevel.HIGH else SeverityLevel.MEDIUM)
      "Heavy Rainfall Alert"
      ("Heavy rainfall of " ++ fmtQ precipitation ++ "mm detected with " ++
       fmtQ humidity ++ "% humidity. " ++
       "Flooding possible in low-lying areas. Roads may be slippery. Exercise caution while traveling.")
      location geo metrics)
  -- MEDIUM: Moderate rain with very high humidity and full cloud cover
  else if precipitation ≥ SEVERE_THRESHOLDS.precipitation_moderate ∧
      humidity ≥ 85 ∧ cloud_cover ≥ SEVERE_THRESHOLDS.cloud_cover_full then
    some (createAlertData AlertType.HEAVY_RAIN SeverityLevel.MEDIUM
      "Severe Weather - Heavy Rain Expected"
      ("Active rainfall of " ++ fmtQ precipitation ++ "mm detected with " ++
       fmtQ humidity ++ "% humidity and " ++ fmtQ cloud_cover ++ "% cloud cover. " ++
       "Wet roads and reduced visibility. Drive carefully and expect slower traffic. " ++
       "Conditions may worsen - monitor weather updates.")
      location geo metrics)
  -- HIGH: Severe storm (high winds + rain)
  else if wind_speed ≥ SEVERE_THRESHOLDS.wind_speed_high ∧ precipitation ≥ 5 then
    some (createAlertData AlertType.STORM SeverityLevel.HIGH
      "Severe Storm Warning"
      ("Severe storm conditions with " ++ fmtQ wind_speed ++ " km/h winds and heavy rain. " ++
       "Stay indoors and secure loose objects.")
      location geo metrics)
  -- MEDIUM: High winds
  else if wind_speed ≥ SEVERE_THRESHOLDS.wind_speed_high then
    some (createAlertData AlertType.STORM SeverityLevel.MEDIUM
      "High Wind Advisory"
      ("Strong winds of " ++ fmtQ wind_speed ++ " km/h expected. " ++
       "Secure outdoor objects and use caution while driving.")
      location geo metrics)
  -- LOW: Extreme cold
  else if temp ≤ SEVERE_THRESHOLDS.temperature_low then
    some (createAlertData AlertType.SNOW
      (if temp ≤ -20 then SeverityLevel.MEDIUM else SeverityLevel.LOW)
      "Extreme Cold Warning"
      ("Dangerously cold temperature of " ++ fmtQ temp ++ "°C. " ++
       "Frostbite and hypothermia risk. Dress warmly.")
      location geo metrics)
  -- No severe conditions detected
  else none

/-- `_analyze_conditions` (lines 156-322): official-alert branch, then
severe-forecast branch, then the threshold cascade.  `weather_data = none`
models a caller passing a non-dict payload (both `.get` reads are then skipped
and the empty defaults used, exactly as in the source's `isinstance` guard). -/
def analyzeConditions (metrics : Metrics) (location : String) (geo : GeoData)
    (weather_data : Option WeatherDict) : Option AlertData :=
  let temp := metrics.temperature
  let wind_speed := metrics.wind_speed
  let precipitation := metrics.precipitation
  let humidity := metrics.humidity
  let cloud_cover := metrics.cloud_cover
  let weather_alerts := match weather_data with
    | some d => d.alerts
    | none => []
  let forecast_severity := match weather_data with
    | some d => d.forecast_severity.getD emptyFS
    | none => emptyFS
  -- CRITICAL: Official weather alerts (cyclones, hurricanes, red alerts)
  match weather_alerts with
  | sig :: _ =>
    let alert_event := sig.event.getD "Weather Alert"
    let alert_description := sig.description.getD ""
    let ev := lowerStr alert_event
    let severity := SeverityLevel.CRITICAL
    let severity :=
      if containsAny ev ["watch", "advisory", "yellow"] then SeverityLevel.HIGH
      else if containsAny ev ["warning", "red", "cyclone", "hurricane"] then
        SeverityLevel.CRITICAL
      else severity
    some (createAlertData
      (if containsAny ev ["cyclone", "hurricane", "typhoon"] then AlertType.HURRICANE
       else AlertType.STORM)
      severity
      ("⚠️ OFFICIAL ALERT: " ++ alert_event)
      (alert_description ++ "\n\n" ++
       "Current conditions: " ++ fmtQ temp ++ "°C, " ++ fmtQ wind_speed ++
       " km/h winds, " ++ fmtQ precipitation ++ "mm rain, " ++ fmtQ humidity ++
       "% humidity. " ++
       "Follow official guidance and evacuation orders. Stay informed through official channels.")
      location geo metrics)
  | [] =>
  -- CRITICAL/HIGH: Severe forecast conditions
  if forecast_severity.has_severe_forecast.getD false then
    let max_wind_24h := forecast_severity.max_wind_24h.getD 0
    let total_precip_24h := forecast_severity.total_precipitation_24h.getD 0
    let severe_conditions := forecast_severity.severe_conditions
    if max_wind_24h > 100 ∨ total_precip_24h > 50 ∨
        severe_conditions.any (fun c =>
          strContains (lowerStr c) "cyclone" || strContains (lowerStr c) "hurricane") then
      some (createAlertData AlertType.HURRICANE SeverityLevel.CRITICAL
        "⚠️ SEVERE WEATHER WARNING - Dangerous Conditions Approaching"
        ("Severe weather system approaching with " ++ fmtQ max_wind_24h ++
         " km/h winds and " ++ fmtQ total_precip_24h ++ "mm rainfall expected in next 24 hours. " ++
         "Current: " ++ fmtQ temp ++ "°C, " ++ fmtQ wind_speed ++ " km/h winds, " ++
         fmtQ precipitation ++ "mm rain, " ++ fmtQ humidity ++ "% humidity, " ++
         fmtQ cloud_cover ++ "% clouds. " ++
         "⚠️ HIGH RISK OF FLOODING, LANDSLIDES, AND FALLING TREES. " ++
         "Avoid unnecessary travel. Stay indoors. Follow local authority instructions. Have emergency supplies ready.")
        location geo metrics)
    else if max_wind_24h > 60 ∨ total_precip_24h > 30 then
      some (createAlertData AlertType.STORM SeverityLevel.HIGH
        "⚠️ SEVERE WEATHER ALERT - Storm Approaching"
        ("Severe weather forecast with " ++ fmtQ max_wind_24h ++ " km/h winds and " ++
         fmtQ total_precip_24h ++ "mm rainfall expected in next 24 hours. " ++
         "Current: " ++ fmtQ temp ++ "°C, " ++ fmtQ wind_speed ++ " km/h winds, " ++
         fmtQ precipitation ++ "mm rain, " ++ fmtQ humidity ++ "% humidity. " ++
         "Flooding possible. Secure outdoor objects. Avoid travel if possible. Monitor weather updates closely.")
        location geo metrics)
    else thresholdChecks metrics location geo
  else thresholdChecks metrics location geo

/-! ## `create_alert` (`src/services/alert_service.py`, lines 352-419)

The database is modelled as the list of persisted `Alert` rows plus an id
counter; `datetime.utcnow()` is modelled as an explicit rational timestamp
`now` measured in hours, so the dedup window is `[now - 6, now]` and the
expiry offset is `+24`. -/

/-- A persisted `Alert` row (`src/models/alert.py`). -/
structure AlertRec where
  id : ℕ
  alert_type : AlertType
  severity : SeverityLevel
  title : String
  description : String
  location : String
  city : String
  state : String
  country : String
  latitude : Option ℚ
  longitude : Option ℚ
  temperature : ℚ
  wind_speed : ℚ
  precipitation : ℚ
  humidity : ℚ
  is_active : Bool
  is_sent : Bool
  /-- timestamp in hours -/
  detected_at : ℚ
  /-- timestamp in hours -/
  expires_at : Option ℚ
  deriving DecidableEq, Repr

/-- The alert store: persisted rows plus the autoincrement counter. -/
structure AlertDB where
  alerts : List AlertRec
  nextId : ℕ
  deriving DecidableEq, Repr

/-- The dedup lookup's `where` clause: same location, same type, active, and
`detected_at >= utcnow() - 6 hours`. -/
def matchesDedup (now : ℚ) (location : String) (ty : AlertType) (a : AlertRec) : Bool :=
  a.location = location && a.alert_type = ty && a.is_active && a.detected_at ≥ now - 6

/-- SQLAlchemy `Result.scalar_one_or_none()`: `none` on zero rows, the row on
exactly one, and `MultipleResultsFound` (an exception, modelled as `.error`)
on two or more. -/
def scalarOneOrNone (rows : List AlertRec) : Except Unit (Option AlertRec) :=
  match rows with
  | [] => .ok none
  | [a] => .ok (some a)
  | _ => .error ()

/-- The new row built by `create_alert` when no duplicate is found. -/
def newAlertRow (now : ℚ) (db : AlertDB) (d : AlertData) : AlertRec :=
  { id := db.nextId
    alert_type := d.alert_type
    severity := d.severity
    title := d.title
    description := d.description
    location := d.location
    city := d.city
    state := d.state
    country := d.country
    latitude := d.latitude
    longitude := d.longitude
    temperature := d.temperature
    wind_speed := d.wind_speed
    precipitation := d.precipitation
    humidity := d.humidity
    is_active := true
    is_sent := false
    detected_at := now
    expires_at := some (now + 24) }

/-- `create_alert`: look up an active alert for the same (location, type)
detected within the last 6 hours; return it unchanged when found, otherwise
persist a new row.  `.error ()` models the re-raised exception path (after
rollback the store is unchanged). -/
def createAlert (now : ℚ) (db : AlertDB) (d : AlertData) :
    Except Unit (AlertRec × AlertDB) :=
  match scalarOneOrNone (db.alerts.filter (matchesDedup now d.location d.alert_type)) with
  | .error _ => .error ()
  | .ok (some existing) => .ok (existing, db)
  | .ok none =>
    let a := newAlertRow now db d
    .ok (a, { alerts := db.alerts ++ [a], nextId := db.nextId + 1 })

/-! ## Route planning (`src/tools/route_planning.py`)

`calculate_distance` is the Haversine great-circle formula over IEEE floats
(`math.sin`, `math.atan2`, …).  Transcendental floating-point arithmetic has
no exact shallow embedding, so the distance function is abstracted as an
explicit parameter `dist`; every verified property of `is_point_near_route`
and of the fallback city scan is proved for all `dist`, or refuted at a
concrete `dist` whose values agree with Haversine on the points used
(collinear points on one meridian, where Haversine reduces to
`R · |Δlat in radians|`). -/

/-- A latitude/longitude pair. -/
structure Coord where
  lat : ℚ
  lon : ℚ
  deriving DecidableEq, Repr

/-- `is_point_near_route` (lines 210-249), with the Haversine distance
abstracted as `dist`: include the point when it is within `threshold_km` of
the start or of the end, and otherwise exactly when its detour cost
`dist(p,start) + dist(p,end) - dist(start,end)` is below `threshold_km`. -/
def isPointNearRoute (dist : Coord → Coord → ℚ) (p start e : Coord)
    (threshold_km : ℚ := 50) : Bool :=
  let dist_to_start := dist p start
  let dist_to_end := dist p e
  let route_length := dist start e
  if dist_to_start < threshold_km ∨ dist_to_end < threshold_km then true
  else
    let total_detour := dist_to_start + dist_to_end - route_length
    total_detour < threshold_km

/-- An entry of the curated `MAJOR_CITIES_INDIA` table. -/
structure CityEntry where
  name : String
  lat : ℚ
  lon : ℚ
  state : String
  deriving DecidableEq, Repr

/-- The curated-table scan of the fallback branch of `find_cities_along_route`
(lines 470-493): skip entries whose lower-cased name equals the start or end
city, keep those passing `is_point_near_route`.  (The later interpolation step
that runs only when fewer than 2 cities are found and the route exceeds 100km
draws on network reverse-geocoding, not on the curated table, and is outside
this scan.) -/
def fallbackRouteCities (dist : Coord → Coord → ℚ) (table : List CityEntry)
    (start_city end_city : String) (start e : Coord) (threshold_km : ℚ) :
    List CityEntry :=
  table.filter (fun c =>
    !([lowerStr start_city, lowerStr end_city].contains (lowerStr c.name)) &&
    isPointNearRoute dist ⟨c.lat, c.lon⟩ start e threshold_km)

/-- The per-city travel-risk label returned by `assess_weather_severity`
(as the strings `"low"`, `"medium"`, `"high"`, `"critical"`). -/
inductive TravelSeverity where
  | low | medium | high | critical
  deriving DecidableEq, Repr

/-- The weather dict read by `assess_weather_severity`: every field is read
through `.get` with the default shown at its use site.  `humidity` and
`precipitation` occur in weather payloads but are never read here. -/
structure TravelWeather where
  condition : Option String := none
  wind_speed : Option ℚ := none
  temperature : Option ℚ := none
  humidity : Option ℚ := none
  precipitation : Option ℚ := none
  deriving DecidableEq, Repr

/-- `assess_weather_severity` (lines 718-765). -/
def assessWeatherSeverity (weather : TravelWeather) : TravelSeverity :=
  let condition := lowerStr (weather.condition.getD "")
  let wind_speed := weather.wind_speed.getD 0
  let temp := weather.temperature.getD 25
  -- CRITICAL - DO NOT TRAVEL (Red Alert)
  if containsAny condition ["thunderstorm", "tornado", "hurricane", "cyclone", "severe storm"] then
    .critical
  else if temp > 48 ∨ temp < -5 then .critical
  else if wind_speed > 60 then .critical
  -- HIGH - AVOID TRAVEL IF POSSIBLE (Orange Alert)
  else if containsAny condition ["heavy rain", "heavy snow", "blizzard", "hail", "ice storm"] then
    .high
  else if temp > 43 ∨ temp < 2 then .high
  else if wind_speed > 40 then .high
  -- MEDIUM - PROCEED WITH CAUTION (Yellow - minor conditions)
  else if containsAny condition ["moderate rain", "light snow", "fog", "mist"] then .medium
  else if temp > 38 ∨ temp < 8 then .medium
  else if wind_speed > 25 then .medium
  -- LOW - SAFE TO TRAVEL (Green)
  else .low

/-- One entry of the `city_weather` list passed to
`generate_route_recommendation`: the fields it reads. -/
structure CityWeather where
  city : String
  severity : TravelSeverity
  deriving DecidableEq, Repr

/-- The "do not travel" message (the leading characters reproduce the literal
bytes of the source file). -/
def criticalMsg (critical_cities : List String) : String :=
  "ðŸš¨ DO NOT TRAVEL - Critical weather conditions detected in " ++
  String.intercalate ", " critical_cities ++ ". " ++
  "Extreme weather poses serious safety risks (severe storms, extreme temperatures, or hurricane-force winds). " ++
  "POSTPONE TRAVEL or take alternative route."

/-- The "travel not recommended" message. -/
def notRecommendedMsg (high_cities : List String) : String :=
  "âš ï¸ TRAVEL NOT RECOMMENDED - Hazardous weather in " ++
  String.intercalate ", " high_cities ++ ". " ++
  "Heavy rain, snow, or very strong winds expected. Consider delaying travel until conditions improve."

/-- The "caution advised" message. -/
def cautionMsg (high_city : String) : String :=
  "âš ï¸ CAUTION ADVISED - Hazardous weather expected in " ++
  high_city ++ ". " ++
  "Travel possible but drive carefully through this area. Monitor weather updates."

/-- The "safe with caution" message. -/
def safeWithCautionMsg : String :=
  "âœ… TRAVEL SAFE WITH CAUTION - Some areas may have moderate rain, fog, or winds. " ++
  "Normal travel possible, just drive carefully and stay alert to changing conditions."

/-- The "excellent conditions" message. -/
def excellentMsg : String :=
  "âœ… EXCELLENT CONDITIONS - Weather is favorable for travel along this route. " ++
  "Safe journey expected. Enjoy your trip!"

/-- `generate_route_recommendation` (lines 768-831).  The `warnings` and
`severe` arguments are accepted but never read by the source body. -/
def generateRouteRecommendation (city_weather : List CityWeather)
    (warnings severe : List String) : String :=
  if city_weather.isEmpty then
    "Unable to generate recommendation - no weather data available."
  else
    let critical_count := city_weather.countP (fun c => c.severity == .critical)
    let high_count := city_weather.countP (fun c => c.severity == .high)
    let medium_count := city_weather.countP (fun c => c.severity == .medium)
    let total_cities := city_weather.length
    if critical_count > 0 then
      criticalMsg ((city_weather.filter (fun c => c.severity == .critical)).map (·.city))
    else if high_count ≥ 2 then
      notRecommendedMsg ((city_weather.filter (fun c => c.severity == .high)).map (·.city))
    else if high_count = 1 then
      -- `next(c["city"] for c in city_weather if ...)`: the first high city
      cautionMsg ((((city_weather.filter (fun c => c.severity == .high)).map (·.city))).headD "")
    else if (medium_count : ℚ) ≥ (total_cities : ℚ) * (1/2) then
      safeWithCautionMsg
    else
      excellentMsg

/-! ## Notification fan-out (`src/services/notification_service.py`)

`send_alert_notifications` iterates over the matched (user, subscription)
pairs; for each enabled pair `_send_email_notification` renders the payload,
attempts the SMTP dispatch, and writes a `NotificationLog` row recording the
outcome.  The SMTP transport is an external effect: it is modelled as an
oracle `outcome : ℕ → SendOutcome` giving, per user id, whether the dispatch
call succeeds or raises (and with which error text).  Every property proved
below holds for all oracles. -/

/-- `NotificationStatus` values used by this service. -/
inductive NotificationStatus where
  | SENT | FAILED
  deriving DecidableEq, Repr

/-- Result of one SMTP dispatch attempt: success, or an exception with the
stringified error. -/
inductive SendOutcome where
  | success
  | failure (err : String)
  deriving DecidableEq, Repr

/-- The fields of a `User` row read by the fan-out. -/
structure UserRec where
  id : ℕ
  name : String
  /-- `none` models a NULL email column -/
  email : Option String
  deriving DecidableEq, Repr

/-- Python truthiness of `user.email`: non-None and non-empty. -/
def emailTruthy : Option String → Bool
  | none => false
  | some s => !s.isEmpty

/-- The fields of a `UserSubscription` row read by the fan-out. -/
structure Subscription where
  email_enabled : Bool
  notify_on_low : Bool
  notify_on_medium : Bool
  notify_on_high : Bool
  notify_on_critical : Bool
  deriving DecidableEq, Repr

/-- `_should_notify` (lines 139-147): the per-severity opt-in flag.  (The
`severity_map.get(severity, True)` default is unreachable: all four enum
members are keys.) -/
def shouldNotify (subscription : Subscription) (severity : SeverityLevel) : Bool :=
  match severity with
  | .LOW => subscription.notify_on_low
  | .MEDIUM => subscription.notify_on_medium
  | .HIGH => subscription.notify_on_high
  | .CRITICAL => subscription.notify_on_critical

/-- The email subject: `f"🚨 {alert.severity.value.upper()} ALERT: {alert.title}"`. -/
def emailSubject (alert : AlertRec) : String :=
  "🚨 " ++ upperStr alert.severity.value ++ " ALERT: " ++ alert.title

/-- A `NotificationLog` row as written by `_log_notification` (the rendered
HTML body is prose pass-through and is not modelled). -/
structure NotifRecord where
  user_id : ℕ
  alert_id : ℕ
  status : NotificationStatus
  recipient_email : Option String
  subject : String
  error_message : Option String
  deriving DecidableEq, Repr

/-- `_send_email_notification` (lines 149-219) for one (user, subscription)
pair: render the subject, attempt dispatch per the oracle, and produce the
`NotificationLog` row — `SENT` on success, `FAILED` with the captured error
text when the transport raises.  Returns the `bool` the source returns plus
the persisted row. -/
def sendEmailNotification (outcome : ℕ → SendOutcome) (user : UserRec)
    (alert : AlertRec) : Bool × NotifRecord :=
  let subject := emailSubject alert
  match outcome user.id with
  | .success =>
    (true, { user_id := user.id, alert_id := alert.id, status := .SENT,
             recipient_email := user.email, subject := subject,
             error_message := none })
  | .failure err =>
    (false, { user_id := user.id, alert_id := alert.id, status := .FAILED,
              recipient_email := user.email, subject := subject,
              error_message := some err })

/-- The record (if any) that the fan-out writes for one pair: skipped pairs
(opt-out, channel disabled, or missing email) produce none; enabled pairs
produce exactly the row of `sendEmailNotification`, depending only on this
pair's own oracle outcome. -/
def recordForPair (outcome : ℕ → SendOutcome) (alert : AlertRec)
    (p : UserRec × Subscription) : Option NotifRecord :=
  if shouldNotify p.2 alert.severity && (p.2.email_enabled && emailTruthy p.1.email) then
    some (sendEmailNotification outcome p.1 alert).2
  else none

/-- The summary dict returned by `send_alert_notifications`. -/
structure FanoutSummary where
  sent : ℕ
  failed : ℕ
  deriving DecidableEq, Repr

/-- The loop of `send_alert_notifications` (lines 68-99): process the matched
pairs in order; a pair whose opt-in flag for the alert's severity is off is
skipped; an enabled pair gets a dispatch attempt whose failure is absorbed by
`_send_email_notification`'s own `except` (which logs the `FAILED` row and
returns `False`), so the loop always continues to the next pair. -/
def sendAlertNotifications (outcome : ℕ → SendOutcome) (alert : AlertRec) :
    List (UserRec × Subscription) → FanoutSummary × List NotifRecord
  | [] => (⟨0, 0⟩, [])
  | p :: rest =>
    let (summary, records) := sendAlertNotifications outcome alert rest
    if shouldNotify p.2 alert.severity then
      if p.2.email_enabled && emailTruthy p.1.email then
        let (ok, rec) := sendEmailNotification outcome p.1 alert
        if ok then (⟨summary.sent + 1, summary.failed⟩, rec :: records)
        else (⟨summary.sent, summary.failed + 1⟩, rec :: records)
      else (summary, records)
    else (summary, records)

/-! ## Theorems -/

/-- The (type, severity) projection of a classification result. -/
def typeAndSeverity (d : AlertData) : AlertType × SeverityLevel :=
  (d.alert_type, d.severity)

/-- No official alert signal and no severe forecast flag in the raw payload
passed alongside the metrics. -/
def noOfficialSignals : Option WeatherDict → Prop
  | none => True
  | some d => d.alerts = [] ∧
      (d.forecast_severity.getD emptyFS).has_severe_forecast.getD false = false

/-- With no official-alert and no severe-forecast signal, `_analyze_conditions`
falls through to the threshold cascade. -/
theorem analyzeConditions_noSignals (m : Metrics) (loc : String) (geo : GeoData)
    (w : Option WeatherDict) (h : noOfficialSignals w) :
    analyzeConditions m loc geo w = thresholdChecks m loc geo := by
  cases w with
  | none => simp [analyzeConditions, emptyFS]
  | some d =>
    obtain ⟨h1, h2⟩ := h
    simp [analyzeConditions, h1, h2]

/-- C1: For a metrics input with precipitation 60mm and every other field
non-triggering (no official alerts, no severe forecast, wind below the
118 km/h critical threshold, temperature below 40°C), the classifier returns
(Flood, Critical); for the same input with precipitation 20mm it returns
(HeavyRain, **Medium**) — severity High would require precipitation ≥ 25mm. -/
theorem C1_flood_and_heavy_rain (m : Metrics) (loc : String) (geo : GeoData)
    (w : Option WeatherDict) (hsig : noOfficialSignals w)
    (hwind : m.wind_speed < 118) (htemp : m.temperature < 40) :
    (m.precipitation = 60 →
      (analyzeConditions m loc geo w).map typeAndSeverity =
        some (AlertType.FLOOD, SeverityLevel.CRITICAL)) ∧
    (m.precipitation = 20 →
      (analyzeConditions m loc geo w).map typeAndSeverity =
        some (AlertType.HEAVY_RAIN, SeverityLevel.MEDIUM)) := by
  rw [analyzeConditions_noSignals m loc geo w hsig]
  have hw := not_le.mpr hwind
  have ht := not_le.mpr htemp
  constructor <;> intro hp <;>
    norm_num [thresholdChecks, SEVERE_THRESHOLDS, hp, hw, ht, createAlertData,
      typeAndSeverity]

/-- Witness for C1: the nominal metrics (25°C, 10 km/h wind, 60% humidity,
40% cloud) with precipitation 60mm give (Flood, Critical), and with 20mm give
(HeavyRain, Medium). -/
theorem C1_flood_and_heavy_rain_witness :
    (analyzeConditions
        { temperature := 25, wind_speed := 10, precipitation := 60,
          humidity := 60, cloud_cover := 40 } "Chennai" {} none).map typeAndSeverity =
      some (AlertType.FLOOD, SeverityLevel.CRITICAL) ∧
    (analyzeConditions
        { temperature := 25, wind_speed := 10, precipitation := 20,
          humidity := 60, cloud_cover := 40 } "Chennai" {} none).map typeAndSeverity =
      some (AlertType.HEAVY_RAIN, SeverityLevel.MEDIUM) :=
  ⟨(C1_flood_and_heavy_rain _ "Chennai" {} none trivial (by norm_num) (by norm_num)).1 rfl,
   (C1_flood_and_heavy_rain _ "Chennai" {} none trivial (by norm_num) (by norm_num)).2 rfl⟩

/-- C1 counterexample: at precipitation 20mm (all else nominal) the classifier
returns severity Medium, not the claimed High. -/
theorem C1_counterexample :
    (analyzeConditions
        { temperature := 25, wind_speed := 10, precipitation := 20,
          humidity := 60, cloud_cover := 40 } "Chennai" {} none).map typeAndSeverity =
      some (AlertType.HEAVY_RAIN, SeverityLevel.MEDIUM) ∧
    SeverityLevel.MEDIUM ≠ SeverityLevel.HIGH := by
  constructor
  · decide
  · decide

/-- C5 (amended): whenever an official alert signal is present, the classifier
returns type Hurricane exactly when the first signal's event text mentions
cyclone/hurricane/typhoon (else Storm), and severity High exactly when that
text contains "watch", "advisory" **or "yellow"** (else Critical). -/
theorem C5_official_alert (m : Metrics) (loc : String) (geo : GeoData)
    (d : WeatherDict) (sig : AlertSignal) (rest : List AlertSignal)
    (h : d.alerts = sig :: rest) :
    (analyzeConditions m loc geo (some d)).map typeAndSeverity =
      some
        (if containsAny (lowerStr (sig.event.getD "Weather Alert"))
            ["cyclone", "hurricane", "typhoon"] then AlertType.HURRICANE
         else AlertType.STORM,
         if containsAny (lowerStr (sig.event.getD "Weather Alert"))
            ["watch", "advisory", "yellow"] then SeverityLevel.HIGH
         else SeverityLevel.CRITICAL) := by
  simp only [analyzeConditions, h, createAlertData, Option.map_some]
  split_ifs <;> rfl

/-- Witness for C5: an official signal whose event text is "Hurricane Warning"
yields (Hurricane, Critical). -/
theorem C5_official_alert_witness :
    (analyzeConditions initMetrics "Chennai" {}
        (some { alerts := [{ event := some "Hurricane Warning" }] })).map typeAndSeverity =
      some (AlertType.HURRICANE, SeverityLevel.CRITICAL) := by
  rw [C5_official_alert initMetrics "Chennai" {} _ { event := some "Hurricane Warning" } [] rfl]
  decide

/-- C5 counterexample: the event text "Yellow rain alert" contains neither
"watch" nor "advisory", yet the classifier returns severity High (the source
also demotes on the word "yellow"), refuting "no other word in the event text
changes the severity". -/
theorem C5_counterexample :
    (analyzeConditions initMetrics "Chennai" {}
        (some { alerts := [{ event := some "Yellow rain alert" }] })).map typeAndSeverity =
      some (AlertType.STORM, SeverityLevel.HIGH) ∧
    SeverityLevel.HIGH ≠ SeverityLevel.CRITICAL := by
  constructor
  · decide
  · decide

/-- C2: `create_alert` is idempotent within the dedup window.  When the store
holds the active alert `a` for the same (location, alert_type) detected within
the last 6 hours (under the documented dedup invariant it is the only match),
`create_alert` returns `a` unchanged and the store is untouched; when no such
alert exists — e.g. the previous one was detected more than 6 hours ago —
a new row is appended with `is_active = true`, `is_sent = false`,
`detected_at = now` and `expires_at = now + 24h`. -/
theorem C2_create_if_absent (now : ℚ) (db : AlertDB) (d : AlertData) :
    (∀ a : AlertRec,
      db.alerts.filter (matchesDedup now d.location d.alert_type) = [a] →
      createAlert now db d = .ok (a, db)) ∧
    (db.alerts.filter (matchesDedup now d.location d.alert_type) = [] →
      createAlert now db d =
        .ok (newAlertRow now db d,
             { alerts := db.alerts ++ [newAlertRow now db d], nextId := db.nextId + 1 }) ∧
      (newAlertRow now db d).is_active = true ∧
      (newAlertRow now db d).is_sent = false ∧
      (newAlertRow now db d).detected_at = now ∧
      (newAlertRow now db d).expires_at = some (now + 24)) := by
  constructor
  · intro a h
    simp [createAlert, h, scalarOneOrNone]
  · intro h
    refine ⟨by simp [createAlert, h, scalarOneOrNone], rfl, rfl, rfl, rfl⟩

/-- Witness for C2: with one matching active alert in the store, `create_alert`
returns it and leaves the store unchanged; from an empty store it persists a
fresh row flagged active, unsent, expiring 24 hours later. -/
theorem C2_create_if_absent_witness :
    createAlert 10
        { alerts :=
            [{ id := 0, alert_type := .FLOOD, severity := .CRITICAL, title := "T",
               description := "D", location := "Chennai", city := "", state := "",
               country := "", latitude := none, longitude := none, temperature := 25,
               wind_speed := 10, precipitation := 60, humidity := 60,
               is_active := true, is_sent := true, detected_at := 6,
               expires_at := some 30 }],
          nextId := 1 }
        { alert_type := .FLOOD, severity := .CRITICAL, title := "T2",
          description := "D2", location := "Chennai", city := "", state := "",
          country := "", latitude := none, longitude := none, temperature := 25,
          wind_speed := 10, precipitation := 55, humidity := 60 } =
      .ok
        ({ id := 0, alert_type := .FLOOD, severity := .CRITICAL, title := "T",
           description := "D", location := "Chennai", city := "", state := "",
           country := "", latitude := none, longitude := none, temperature := 25,
           wind_speed := 10, precipitation := 60, humidity := 60,
           is_active := true, is_sent := true, detected_at := 6,
           expires_at := some 30 },
         { alerts :=
             [{ id := 0, alert_type := .FLOOD, severity := .CRITICAL, title := "T",
                description := "D", location := "Chennai", city := "", state := "",
                country := "", latitude := none, longitude := none, temperature := 25,
                wind_speed := 10, precipitation := 60, humidity := 60,
                is_active := true, is_sent := true, detected_at := 6,
                expires_at := some 30 }],
           nextId := 1 }) ∧
    (createAlert 10 { alerts := [], nextId := 5 }
        { alert_type := .FLOOD, severity := .CRITICAL, title := "T2",
          description := "D2", location := "Chennai", city := "", state := "",
          country := "", latitude := none, longitude := none, temperature := 25,
          wind_speed := 10, precipitation := 55, humidity := 60 } =
      .ok
        (newAlertRow 10 { alerts := [], nextId := 5 }
          { alert_type := .FLOOD, severity := .CRITICAL, title := "T2",
            description := "D2", location := "Chennai", city := "", state := "",
            country := "", latitude := none, longitude := none, temperature := 25,
            wind_speed := 10, precipitation := 55, humidity := 60 },
         { alerts :=
             [newAlertRow 10 { alerts := [], nextId := 5 }
               { alert_type := .FLOOD, severity := .CRITICAL, title := "T2",
                 description := "D2", location := "Chennai", city := "", state := "",
                 country := "", latitude := none, longitude := none, temperature := 25,
                 wind_speed := 10, precipitation := 55, humidity := 60 }],
           nextId := 6 }) ∧
      (newAlertRow 10 { alerts := [], nextId := 5 }
        { alert_type := .FLOOD, severity := .CRITICAL, title := "T2",
          description := "D2", location := "Chennai", city := "", state := "",
          country := "", latitude := none, longitude := none, temperature := 25,
          wind_speed := 10, precipitation := 55, humidity := 60 }).is_active = true) :=
  ⟨(C2_create_if_absent 10 _ _).1 _ (by norm_num [matchesDedup, List.filter]),
   ((C2_create_if_absent 10 _ _).2 (by norm_num [List.filter])).1,
   ((C2_create_if_absent 10 _ _).2 (by norm_num [List.filter])).2.1⟩

/-- C3 counterexample: a payload with `has_severe_forecast` set,
`total_precipitation_24h = 40` (which exceeds the current reading 0) and
`max_precipitation_3h = 2` yields snapshot precipitation 2 — the source copies
`max_precipitation_3h`, not the larger of the current reading and the 24h
total (which would be 40). -/
theorem C3_counterexample :
    extractMetricsDict
      { precipitation := .num 0,
        forecast_severity := some
          { has_severe_forecast := some true,
            total_precipitation_24h := some 40,
            max_precipitation_3h := some 2 } } =
      .ok { temperature := 0, wind_speed := 0, precipitation := 2,
            humidity := 0, pressure := 0, cloud_cover := 0 } ∧
    (2 : ℚ) ≠ max 0 40 := by
  constructor
  · norm_num [extractMetricsDict, tryFloatStep, pyFloat, initMetrics,
      dictBranchTail, emptyFS]
  · norm_num

/-- C3 (amended): when the severe-forecast flag is set (and the condition text
names no precipitation), the wind field indeed becomes the larger of the
current reading and `max_wind_24h` — the update fires exactly when the 24h
maximum exceeds the reading — but the precipitation field is only replaced by
`max(current, max_precipitation_3h)` (default 15), and only when the 24h
precipitation total exceeds 30mm; the 24h total itself is never written. -/
theorem C3_forecast_override (t ws pr hu cc : ℚ) (fs : ForecastSeverity)
    (h : fs.has_severe_forecast = some true) :
    extractMetricsDict
      { temperature := .num t, wind_speed := .num ws, precipitation := .num pr,
        humidity := .num hu, cloud_cover := .num cc, condition := none,
        weather := none, alerts := [], forecast_severity := some fs } =
      .ok { temperature := t,
            wind_speed :=
              if fs.max_wind_24h.getD 0 > ws then max ws (fs.max_wind_24h.getD 0)
              else ws,
            precipitation :=
              if fs.total_precipitation_24h.getD 0 > 30 then
                max pr (fs.max_precipitation_3h.getD 15)
              else pr,
            humidity := hu, pressure := 0, cloud_cover := cc } := by
  have hrain :
      (["rain", "drizzle", "shower", "thunderstorm"].any
        (fun w => strContains (lowerStr "") w || strContains (lowerStr "") w)) = false := by
    decide
  simp only [extractMetricsDict, tryFloatStep, pyFloat, dictBranchTail, h,
    Option.getD_some, Option.getD_none, ne_eq, not_true_eq_false, List.any_nil,
    hrain, Bool.and_false, Bool.false_or, Bool.or_false, decide_True,
    decide_False, Bool.false_and, if_false, if_true, Bool.true_or]
  split_ifs <;> simp_all [initMetrics]

/-- Witness for C3: with current wind 2, current precipitation 0,
`max_wind_24h = 0`, `total_precipitation_24h = 40`, `max_precipitation_3h = 2`,
the snapshot keeps wind 2 and sets precipitation to `max 0 2`. -/
theorem C3_forecast_override_witness :
    extractMetricsDict
      { temperature := .num 1, wind_speed := .num 2, precipitation := .num 0,
        humidity := .num 3, cloud_cover := .num 4, condition := none,
        weather := none, alerts := [],
        forecast_severity := some
          { has_severe_forecast := some true,
            total_precipitation_24h := some 40,
            max_precipitation_3h := some 2,
            max_wind_24h := some 0 } } =
      .ok { temperature := 1,
            wind_speed :=
              if ((0 : ℚ) : ℚ) > 2 then max 2 ((0 : ℚ)) else 2,
            precipitation :=
              if ((40 : ℚ)) > 30 then max 0 ((2 : ℚ)) else 0,
            humidity := 3, pressure := 0, cloud_cover := 4 } :=
  C3_forecast_override 1 2 0 3 4 _ rfl

/-- C4 counterexample: for a *textual* payload consisting of "heavy rain"
(no labelled numeric fields, so measured precipitation stays 0), the extractor
returns precipitation 0, not the claimed 15.0mm — the intensity-keyword
substitution lives only in the structured (dict) branch. -/
theorem C4_counterexample :
    extractWeatherMetrics (.str "heavy rain") = .ok initMetrics ∧
    initMetrics.precipitation ≠ 15 := by
  constructor
  · rfl
  · norm_num [initMetrics]

/-- C4 (amended): for a *structured* payload whose `condition` or `weather`
text names precipitation (rain/drizzle/shower/thunderstorm) while the measured
precipitation is 0 (and no alert/forecast signal bumps it first), the
extractor substitutes the intensity estimate: heavy → 15mm, moderate → 8mm,
light/drizzle → 3mm, otherwise 5mm.  Textual payloads get no substitution. -/
theorem C4_rain_estimate (t ws hu cc : ℚ) (cond wdesc : String)
    (hword :
      (["rain", "drizzle", "shower", "thunderstorm"].any
        (fun w => strContains (lowerStr cond) w || strContains (lowerStr wdesc) w)) = true) :
    extractMetricsDict
      { temperature := .num t, wind_speed := .num ws, precipitation := .num 0,
        humidity := .num hu, cloud_cover := .num cc, condition := some cond,
        weather := some wdesc, alerts := [], forecast_severity := none } =
      .ok { temperature := t, wind_speed := ws,
            precipitation :=
              if strContains (lowerStr cond) "heavy" || strContains (lowerStr wdesc) "heavy" then
                15
              else if strContains (lowerStr cond) "moderate" ||
                  strContains (lowerStr wdesc) "moderate" then 8
              else if strContains (lowerStr cond) "light" ||
                  strContains (lowerStr wdesc) "light" ||
                  strContains (lowerStr cond) "drizzle" then 3
              else 5,
            humidity := hu, pressure := 0, cloud_cover := cc } := by
  have h1 :
      extractMetricsDict
        { temperature := .num t, wind_speed := .num ws, precipitation := .num 0,
          humidity := .num hu, cloud_cover := .num cc, condition := some cond,
          weather := some wdesc, alerts := [], forecast_severity := none } =
        .ok (dictBranchTail
          { temperature := .num t, wind_speed := .num ws, precipitation := .num 0,
            humidity := .num hu, cloud_cover := .num cc, condition := some cond,
            weather := some wdesc, alerts := [], forecast_severity := none }
          { temperature := t, wind_speed := ws, precipitation := 0,
            humidity := hu, pressure := 0, cloud_cover := cc }) := rfl
  rw [h1]
  norm_num [dictBranchTail, Option.getD_some, Option.getD_none, emptyFS, hword]
  split_ifs <;> simp_all

/-- Witness for C4: a structured payload with condition "Heavy rain" and
measured precipitation 0 is assigned precipitation 15.0mm. -/
theorem C4_rain_estimate_witness :
    extractMetricsDict
      { temperature := .num 1, wind_speed := .num 2, precipitation := .num 0,
        humidity := .num 3, cloud_cover := .num 4, condition := some "Heavy rain",
        weather := some "", alerts := [], forecast_severity := none } =
      .ok { temperature := 1, wind_speed := 2,
            precipitation :=
              if strContains (lowerStr "Heavy rain") "heavy" ||
                  strContains (lowerStr "") "heavy" then 15
              else if strContains (lowerStr "Heavy rain") "moderate" ||
                  strContains (lowerStr "") "moderate" then 8
              else if strContains (lowerStr "Heavy rain") "light" ||
                  strContains (lowerStr "") "light" ||
                  strContains (lowerStr "Heavy rain") "drizzle" then 3
              else 5,
            humidity := 3, pressure := 0, cloud_cover := 4 } :=
  C4_rain_estimate 1 2 3 4 "Heavy rain" "" (by decide)

/-- `is_point_near_route` returns true exactly when the point is within the
threshold of the start, within the threshold of the end, or its detour cost is
below the threshold. -/
theorem isPointNearRoute_iff (dist : Coord → Coord → ℚ) (p s e : Coord) (th : ℚ) :
    isPointNearRoute dist p s e th = true ↔
      (dist p s < th ∨ dist p e < th ∨ dist p s + dist p e - dist s e < th) := by
  by_cases h : dist p s < th ∨ dist p e < th
  · simp [isPointNearRoute, h]
    tauto
  · simp [isPointNearRoute, h]
    push_neg at h
    obtain ⟨h1, h2⟩ := h
    constructor
    · intro hc
      exact Or.inr (Or.inr hc)
    · rintro (hc | hc | hc)
      · linarith
      · linarith
      · exact hc

/-- C6 (amended): a curated-table settlement is kept by the fallback scan iff
its lower-cased name differs from both endpoint names AND it is within the
threshold of the start, within the threshold of the end, **or** its detour
cost `dist(p,start) + dist(p,end) − dist(start,end)` is below the threshold —
membership is not decided by the detour cost alone. -/
theorem C6_fallback_membership (dist : Coord → Coord → ℚ) (table : List CityEntry)
    (start_city end_city : String) (s e : Coord) (th : ℚ) (c : CityEntry) :
    c ∈ fallbackRouteCities dist table start_city end_city s e th ↔
      (c ∈ table ∧ lowerStr c.name ≠ lowerStr start_city ∧
       lowerStr c.name ≠ lowerStr end_city ∧
       (dist ⟨c.lat, c.lon⟩ s < th ∨ dist ⟨c.lat, c.lon⟩ e < th ∨
        dist ⟨c.lat, c.lon⟩ s + dist ⟨c.lat, c.lon⟩ e - dist s e < th)) := by
  simp only [fallbackRouteCities, List.mem_filter, Bool.and_eq_true,
    Bool.not_eq_true', isPointNearRoute_iff]
  simp [List.contains, and_assoc]

/-- A distance oracle agreeing with the Haversine `calculate_distance` on
points that share a longitude: there the great-circle distance is
`R·|Δlat in radians|` with `R = 6371` km, i.e. `|Δlat in degrees|` times
`6371·π/180 ≈ 111.19` km per degree.  The factor is rounded to `11119/100`;
the counterexample below is robust to any per-degree factor between 100
and 139. -/
def meridianDist (a b : Coord) : ℚ := |a.lat - b.lat| * (11119 / 100)

/-- C6 counterexample: the settlement at latitude −0.36° (≈40km south of the
start) on the route from (0,0) to (0.03°,0) is kept by the fallback scan —
it lies within 50km of the start — although its detour cost is ≈80km,
which is NOT below the 50km threshold.  Membership is therefore not decided
by the detour cost alone. -/
theorem C6_counterexample :
    isPointNearRoute meridianDist ⟨-36/100, 0⟩ ⟨0, 0⟩ ⟨3/100, 0⟩ 50 = true ∧
    fallbackRouteCities meridianDist [{ name := "Smalltown", lat := -36/100, lon := 0, state := "TN" }]
        "Chennai" "Trichy" ⟨0, 0⟩ ⟨3/100, 0⟩ 50 =
      [{ name := "Smalltown", lat := -36/100, lon := 0, state := "TN" }] ∧
    ¬(meridianDist ⟨-36/100, 0⟩ ⟨0, 0⟩ + meridianDist ⟨-36/100, 0⟩ ⟨3/100, 0⟩ -
        meridianDist ⟨0, 0⟩ ⟨3/100, 0⟩ < 50) := by
  have hnear :
      isPointNearRoute meridianDist ⟨-36/100, 0⟩ ⟨0, 0⟩ ⟨3/100, 0⟩ 50 = true := by
    norm_num [isPointNearRoute, meridianDist, abs]
  have hname :
      (!([lowerStr "Chennai", lowerStr "Trichy"].contains (lowerStr "Smalltown"))) = true := by
    decide
  refine ⟨hnear, ?_, ?_⟩
  · have hc1 : (decide (lowerStr "Smalltown" = lowerStr "Chennai")) = false := by decide
    have hc2 : (decide (lowerStr "Smalltown" = lowerStr "Trichy")) = false := by decide
    simp [fallbackRouteCities, List.filter, hname, hnear, hc1, hc2]
  · norm_num [meridianDist, abs]

/-- C7: for every non-empty route, the aggregate recommendation is governed by
the worst city: any critical city yields the "do not travel" message
regardless of the other cities; with none critical, ≥2 high cities yield
"travel not recommended", exactly 1 high yields "caution advised", at least
50% medium yields "safe with caution", and otherwise the favorable
"excellent conditions" message is returned. -/
theorem C7_route_recommendation (cw : List CityWeather) (warnings severe : List String)
    (hne : cw ≠ []) :
    ((∃ c ∈ cw, c.severity = .critical) →
      generateRouteRecommendation cw warnings severe =
        criticalMsg ((cw.filter (fun c => c.severity == .critical)).map (·.city))) ∧
    (cw.countP (fun c => c.severity == .critical) = 0 →
      2 ≤ cw.countP (fun c => c.severity == .high) →
      generateRouteRecommendation cw warnings severe =
        notRecommendedMsg ((cw.filter (fun c => c.severity == .high)).map (·.city))) ∧
    (cw.countP (fun c => c.severity == .critical) = 0 →
      cw.countP (fun c => c.severity == .high) = 1 →
      generateRouteRecommendation cw warnings severe =
        cautionMsg ((((cw.filter (fun c => c.severity == .high)).map (·.city))).headD "")) ∧
    (cw.countP (fun c => c.severity == .critical) = 0 →
      cw.countP (fun c => c.severity == .high) = 0 →
      2 * cw.countP (fun c => c.severity == .medium) ≥ cw.length →
      generateRouteRecommendation cw warnings severe = safeWithCautionMsg) ∧
    (cw.countP (fun c => c.severity == .critical) = 0 →
      cw.countP (fun c => c.severity == .high) = 0 →
      2 * cw.countP (fun c => c.severity == .medium) < cw.length →
      generateRouteRecommendation cw warnings severe = excellentMsg) := by
  have hempty : cw.isEmpty = false := by
    cases cw with
    | nil => exact absurd rfl hne
    | cons a l => rfl
  refine ⟨?_, ?_, ?_, ?_, ?_⟩
  · intro hex
    have hcrit : 0 < cw.countP (fun c => c.severity == .critical) := by
      rw [List.countP_pos_iff]
      obtain ⟨c, hc, hs⟩ := hex
      exact ⟨c, hc, by simp [hs]⟩
    simp [generateRouteRecommendation, hempty, hcrit]
  · intro h0 h2
    simp [generateRouteRecommendation, hempty, h0, h2]
  · intro h0 h1
    simp [generateRouteRecommendation, hempty, h0, h1]
  · intro h0 h1 hm
    have hc : ((cw.length : ℚ)) ≤
        2 * ((cw.countP (fun c => c.severity == .medium) : ℚ)) := by
      exact_mod_cast hm
    simp only [generateRouteRecommendation, hempty, Bool.false_eq_true,
      if_false, h0, h1]
    norm_num
    intro hcon
    exfalso
    linarith
  · intro h0 h1 hm
    have hc : 2 * ((cw.countP (fun c => c.severity == .medium) : ℚ)) <
        ((cw.length : ℚ)) := by
      exact_mod_cast hm
    simp only [generateRouteRecommendation, hempty, Bool.false_eq_true,
      if_false, h0, h1]
    norm_num
    intro hcon
    exfalso
    linarith

/-- Witness for C7: a route with exactly one critical city and three low ones
is advised "do not travel" naming the critical city. -/
theorem C7_route_recommendation_witness :
    generateRouteRecommendation
        [{ city := "A", severity := .critical }, { city := "B", severity := .low },
         { city := "C", severity := .low }, { city := "D", severity := .low }] [] [] =
      criticalMsg ["A"] := by
  have h :=
    (C7_route_recommendation
      [{ city := "A", severity := .critical }, { city := "B", severity := .low },
       { city := "C", severity := .low }, { city := "D", severity := .low }] [] []
      (by simp)).1
      ⟨{ city := "A", severity := .critical }, by simp, rfl⟩
  simpa [List.filter] using h

/-- C8: the fan-out's record list equals a per-pair `filterMap` — each enabled
(subscriber, channel) pair contributes exactly its own `NotificationLog` row,
determined by that pair's own dispatch outcome alone, so one pair's dispatch
failure cannot abort or alter the processing of the remaining pairs; and a
failed pair's row has status `FAILED` and carries the captured error text. -/
theorem C8_fanout_isolation (outcome : ℕ → SendOutcome) (alert : AlertRec)
    (pairs : List (UserRec × Subscription)) :
    (sendAlertNotifications outcome alert pairs).2 =
      pairs.filterMap (recordForPair outcome alert) ∧
    (∀ (u : UserRec) (sub : Subscription) (e : String),
      outcome u.id = .failure e →
      shouldNotify sub alert.severity = true →
      sub.email_enabled = true →
      emailTruthy u.email = true →
      recordForPair outcome alert (u, sub) =
        some { user_id := u.id, alert_id := alert.id, status := .FAILED,
               recipient_email := u.email, subject := emailSubject alert,
               error_message := some e }) := by
  constructor
  · induction pairs with
    | nil => rfl
    | cons p rest ih =>
      obtain ⟨u, sub⟩ := p
      simp only [sendAlertNotifications, List.filterMap_cons, recordForPair]
      cases h1 : shouldNotify sub alert.severity
      · simp [h1, ih]
      · cases h2 : sub.email_enabled && emailTruthy u.email
        · simp [h1, h2, ih]
        · cases ho : outcome u.id <;>
            simp [h1, h2, ho, sendEmailNotification, ih]
  · intro u sub e ho h1 h2 h3
    simp [recordForPair, h1, h2, h3, sendEmailNotification, ho]

/-- Witness for C8: with two fully-enabled subscribers where dispatch fails
for user 1 ("boom") and succeeds for user 2, user 1's pair yields the FAILED
record carrying "boom" (and, by the first conjunct, user 2's record is still
produced unchanged). -/
theorem C8_fanout_isolation_witness :
    recordForPair (fun uid => if uid = 1 then .failure "boom" else .success)
        { id := 7, alert_type := .FLOOD, severity := .HIGH, title := "T",
          description := "", location := "L", city := "", state := "",
          country := "", latitude := none, longitude := none, temperature := 0,
          wind_speed := 0, precipitation := 0, humidity := 0, is_active := true,
          is_sent := false, detected_at := 0, expires_at := none }
        (⟨1, "u1", some "a@x"⟩, ⟨true, true, true, true, true⟩) =
      some { user_id := 1, alert_id := 7, status := .FAILED,
             recipient_email := some "a@x",
             subject := emailSubject
               { id := 7, alert_type := .FLOOD, severity := .HIGH, title := "T",
                 description := "", location := "L", city := "", state := "",
                 country := "", latitude := none, longitude := none, temperature := 0,
                 wind_speed := 0, precipitation := 0, humidity := 0, is_active := true,
                 is_sent := false, detected_at := 0, expires_at := none },
             error_message := some "boom" } :=
  (C8_fanout_isolation (fun uid => if uid = 1 then .failure "boom" else .success)
      { id := 7, alert_type := .FLOOD, severity := .HIGH, title := "T",
        description := "", location := "L", city := "", state := "",
        country := "", latitude := none, longitude := none, temperature := 0,
        wind_speed := 0, precipitation := 0, humidity := 0, is_active := true,
        is_sent := false, detected_at := 0, expires_at := none }
      [(⟨1, "u1", some "a@x"⟩, ⟨true, true, true, true, true⟩),
       (⟨2, "u2", some "b@x"⟩, ⟨true, true, true, true, true⟩)]).2
    ⟨1, "u1", some "a@x"⟩ ⟨true, true, true, true, true⟩ "boom" rfl rfl rfl rfl

/-- C9 counterexample: (i) for a structured payload whose temperature is a
malformed numeric string while `wind_speed` is the well-formed number 50, the
swallowed `ValueError` aborts the whole try-block — the remaining fields are
NOT extracted and wind stays 0, contradicting "the remaining fields are still
extracted"; (ii) a field value that is neither a string nor a number (e.g.
`None`) raises an uncaught `TypeError`, contradicting "never raises". -/
theorem C9_counterexample :
    (extractMetricsDict { temperature := .badStr, wind_speed := .num 50 } =
      .ok initMetrics ∧ initMetrics.wind_speed ≠ 50) ∧
    extractMetricsDict { temperature := .nonNumeric } = .error .typeError := by
  refine ⟨⟨rfl, by norm_num [initMetrics]⟩, rfl⟩

/-- Auxiliary: a `float(...)` step preserves "no exception escapes" as long as
the value is not of `TypeError`-raising kind. -/
theorem tryFloatStep_isOk (cur : Metrics) (v : FloatableVal)
    (set : Metrics → ℚ → Metrics) (k : Metrics → Except PyExc Metrics)
    (hv : v ≠ .nonNumeric) (hk : ∀ m, (k m).isOk = true) :
    (tryFloatStep cur v set k).isOk = true := by
  cases v with
  | absent => exact hk _
  | num q => exact hk _
  | numStr q => exact hk _
  | badStr => rfl
  | nonNumeric => exact absurd rfl hv

/-- C9 (amended): the extractor never raises on textual payloads, and never
raises on structured payloads in which no metric field holds a value of
non-string/non-numeric kind — `ValueError`/`AttributeError` from malformed
fields are swallowed (the failing field and all later ones keep their zero
defaults).  A non-string/non-numeric field value raises TypeError. -/
theorem C9_never_raises :
    (∀ s : String, (extractWeatherMetrics (.str s)).isOk = true) ∧
    (∀ d : WeatherDict,
      d.temperature ≠ .nonNumeric → d.wind_speed ≠ .nonNumeric →
      d.precipitation ≠ .nonNumeric → d.humidity ≠ .nonNumeric →
      d.cloud_cover ≠ .nonNumeric →
      (extractWeatherMetrics (.dict d)).isOk = true) := by
  constructor
  · intro s
    rfl
  · intro d h1 h2 h3 h4 h5
    show (extractMetricsDict d).isOk = true
    unfold extractMetricsDict
    apply tryFloatStep_isOk _ _ _ _ h1
    intro m1
    apply tryFloatStep_isOk _ _ _ _ h2
    intro m2
    apply tryFloatStep_isOk _ _ _ _ h3
    intro m3
    apply tryFloatStep_isOk _ _ _ _ h4
    intro m4
    apply tryFloatStep_isOk _ _ _ _ h5
    intro m5
    rfl

/-- Witness for C9: the text payload "heavy rain" and a structured payload
whose five metric fields are numbers, numeric strings, malformed strings or
absent all extract without an exception escaping. -/
theorem C9_never_raises_witness :
    (extractWeatherMetrics (.str "heavy rain")).isOk = true ∧
    (extractWeatherMetrics (.dict
      { temperature := .num 21, wind_speed := .numStr 30,
        precipitation := .badStr, humidity := .absent,
        cloud_cover := .num 40 })).isOk = true :=
  ⟨C9_never_raises.1 "heavy rain",
   C9_never_raises.2
     { temperature := .num 21, wind_speed := .numStr 30,
       precipitation := .badStr, humidity := .absent, cloud_cover := .num 40 }
     (by decide) (by decide) (by decide) (by decide) (by decide)⟩

/-- C10: a weather dictionary lacking the condition, wind and temperature
fields — the empty dictionary in particular — is always rated "low": the
assessor defaults a missing temperature to 25°C, missing wind to 0 and a
missing condition to the empty string, all of which sit below every
escalation threshold, so absent data can never produce an elevated per-city
severity or a distinct "no data" rating. -/
theorem C10_missing_weather_low (w : TravelWeather) (hc : w.condition = none)
    (hw : w.wind_speed = none) (ht : w.temperature = none) :
    assessWeatherSeverity w = .low := by
  obtain ⟨c, ws, t, hu, pr⟩ := w
  cases hc
  cases hw
  cases ht
  rfl

/-- Witness for C10: the empty weather dictionary is rated "low". -/
theorem C10_missing_weather_low_witness :
    assessWeatherSeverity {} = .low :=
  C10_missing_weather_low {} rfl rfl rfl

end ClimaSentinel
